import Mathlib

/-!
Shallow embedding of the gafaelfawr / jwt_authorizer sources, with theorems
settling the specification claims about them.

Conventions of the embedding:

* Python byte strings are `List Nat` with every element below 256.
* Python text strings are Lean `String`; where the code manipulates
  characters we work on `String.data`.  All payloads exercised by the
  theorems are ASCII, and the embedding documents the places where it
  restricts itself to ASCII.
* Functions that can raise distinguish the exceptions the callers catch
  from exceptions that escape (modelled as a `raised` constructor).
* External collaborators (Redis session store, JWT verification, the token
  issuer, LDAP, Firestore) are oracle function parameters.
-/

/-! ## Python string helpers -/

/-- ASCII lower-casing of one character, as used by `str.lower()` on the
header values handled here (all ASCII). -/
def lowerChar (c : Char) : Char :=
  if 'A' ≤ c ∧ c ≤ 'Z' then Char.ofNat (c.toNat + 32) else c

/-- ASCII lower-casing of a string. -/
def lowerStr (s : String) : String :=
  String.mk (s.data.map lowerChar)

/-- Python whitespace characters stripped by `str.strip()` (ASCII range). -/
def isPyWs (c : Char) : Bool :=
  c = ' ' ∨ c = '\t' ∨ c = '\n' ∨ c = '\r' ∨ c = Char.ofNat 11 ∨ c = Char.ofNat 12

/-- Model of Python `str.strip()` on a character list. -/
def pyStrip (s : List Char) : List Char :=
  ((s.dropWhile isPyWs).reverse.dropWhile isPyWs).reverse

/-- Model of Python `str.split(sep)` for a one-character separator:
splits at every occurrence, keeping empty fields. -/
def pySplitChar (sep : Char) : List Char → List (List Char)
  | [] => [[]]
  | c :: rest =>
      if c = sep then [] :: pySplitChar sep rest
      else
        match pySplitChar sep rest with
        | [] => [[c]]
        | p :: ps => (c :: p) :: ps

/-- Model of Python `str.rstrip("=")` on a character list. -/
def rstripEq (s : List Char) : List Char :=
  (s.reverse.dropWhile (fun c => c = '=')).reverse

/-- Lexicographic strict order on character lists by code point, the
order Python uses to compare strings. -/
def charsLt : List Char → List Char → Bool
  | [], [] => false
  | [], _ :: _ => true
  | _ :: _, [] => false
  | a :: as, b :: bs =>
      if a.toNat < b.toNat then true
      else if b.toNat < a.toNat then false
      else charsLt as bs

/-- Non-strict string comparison by code point. -/
def pyStrLe (a b : String) : Bool := ¬ charsLt b.data a.data

/-- Insertion into a sorted list of strings (ascending). -/
def strInsert (x : String) : List String → List String
  | [] => [x]
  | y :: ys => if pyStrLe x y then x :: y :: ys else y :: strInsert x ys

/-- Insertion sort on strings, the order of Python `sorted` on ASCII data. -/
def strSort : List String → List String
  | [] => []
  | x :: xs => strInsert x (strSort xs)

/-- Removal of adjacent duplicates (applied after sorting, this yields the
elements of the underlying set in ascending order). -/
def dedupAdj : List String → List String
  | [] => []
  | [x] => [x]
  | x :: y :: r => if x = y then dedupAdj (y :: r) else x :: dedupAdj (y :: r)

/-- Model of Python `sorted(s)` for a set `s` represented as a list of its
elements (possibly with duplicates). -/
def pySortedSet (l : List String) : List String :=
  dedupAdj (strSort l)

/-- Model of Python `sep.join(l)`. -/
def joinSep (sep : String) : List String → String
  | [] => ""
  | [x] => x
  | x :: xs => x ++ sep ++ joinSep sep xs

/-! ## Base64 (model of the Python `base64` module on ASCII text)

`b64Char`/`b64Val` are the standard alphabet of RFC 4648; `urlsafeChar`
is the `urlsafe_b64encode` translation `+/` → `-_`, and `altCharsTranslate`
the inverse translation applied by `b64decode(..., altchars=b"-_")`. -/

/-- Character of a six-bit value in the standard base64 alphabet. -/
def b64Char (v : Nat) : Char :=
  if v < 26 then Char.ofNat (65 + v)
  else if v < 52 then Char.ofNat (97 + v - 26)
  else if v < 62 then Char.ofNat (48 + v - 52)
  else if v = 62 then '+'
  else '/'

/-- Six-bit value of a standard-alphabet base64 character, `none` for any
character outside the alphabet. -/
def b64Val (c : Char) : Option Nat :=
  if 'A' ≤ c ∧ c ≤ 'Z' then some (c.toNat - 65)
  else if 'a' ≤ c ∧ c ≤ 'z' then some (c.toNat - 97 + 26)
  else if '0' ≤ c ∧ c ≤ '9' then some (c.toNat - 48 + 52)
  else if c = '+' then some 62
  else if c = '/' then some 63
  else none

/-- The `urlsafe_b64encode` output translation. -/
def urlsafeChar (c : Char) : Char :=
  if c = '+' then '-' else if c = '/' then '_' else c

/-- The translation performed by `b64decode(..., altchars=b"-_")` before
decoding. -/
def altCharsTranslate (c : Char) : Char :=
  if c = '-' then '+' else if c = '_' then '/' else c

/-- The data characters (no padding) of the standard base64 encoding of a
byte string. -/
def b64EncodeData : List Nat → List Char
  | [] => []
  | [a] => [b64Char (a / 4), b64Char (a % 4 * 16)]
  | [a, b] => [b64Char (a / 4), b64Char (a % 4 * 16 + b / 16), b64Char (b % 16 * 4)]
  | a :: b :: c :: rest =>
      b64Char (a / 4) :: b64Char (a % 4 * 16 + b / 16) ::
        b64Char (b % 16 * 4 + c / 64) :: b64Char (c % 64) :: b64EncodeData rest

/-- Number of `=` padding characters appended by `b64encode`. -/
def b64PadCount (bs : List Nat) : Nat :=
  match bs.length % 3 with
  | 1 => 2
  | 2 => 1
  | _ => 0

/-- Model of Python `base64.b64encode` (standard alphabet, with padding). -/
def b64EncodeBytes (bs : List Nat) : List Char :=
  b64EncodeData bs ++ List.replicate (b64PadCount bs) '='

/-- Model of Python `base64.urlsafe_b64encode`. -/
def urlsafeB64EncodeBytes (bs : List Nat) : List Char :=
  (b64EncodeBytes bs).map urlsafeChar

/-- Decoding of base64 data characters: full four-character groups give
three bytes, a trailing group of two or three characters gives one or two
bytes, and any other shape (or any character outside the alphabet) fails. -/
def pyB64DecodeData : List Char → Option (List Nat)
  | [] => some []
  | [c1, c2] =>
      match b64Val c1, b64Val c2 with
      | some v1, some v2 => some [v1 * 4 + v2 / 16]
      | _, _ => none
  | [c1, c2, c3] =>
      match b64Val c1, b64Val c2, b64Val c3 with
      | some v1, some v2, some v3 =>
          some [v1 * 4 + v2 / 16, v2 % 16 * 16 + v3 / 4]
      | _, _, _ => none
  | [_] => none
  | c1 :: c2 :: c3 :: c4 :: rest =>
      match b64Val c1, b64Val c2, b64Val c3, b64Val c4, pyB64DecodeData rest with
      | some v1, some v2, some v3, some v4, some bytes =>
          some ((v1 * 4 + v2 / 16) :: (v2 % 16 * 16 + v3 / 4) :: (v3 % 4 * 64 + v4) :: bytes)
      | _, _, _, _, _ => none

/-- Model of Python `base64.b64decode` on ASCII input.  Without `validate`,
characters outside the alphabet are discarded; the first `=` ends the data
(anything after it is ignored); a data length of 1 modulo 4 or, when no
padding is present, any length not a multiple of 4, raises
(`binascii.Error`, modelled as `none`).  With `validate=True` any character
outside the alphabet or `=` raises. -/
def pyB64Decode (validate : Bool) (s : List Char) : Option (List Nat) :=
  if validate ∧ s.any (fun c => (b64Val c).isNone ∧ c ≠ '=') then none
  else
    let kept := s.filter (fun c => (b64Val c).isSome ∨ c = '=')
    let data := kept.takeWhile (fun c => c ≠ '=')
    if kept.length = data.length then
      if data.length % 4 = 0 then pyB64DecodeData data else none
    else
      if data.length % 4 = 1 then none else pyB64DecodeData data

/-- Model of `base64.b64decode(s, altchars=b"-_", validate=v)`. -/
def pyB64DecodeAlt (validate : Bool) (s : List Char) : Option (List Nat) :=
  pyB64Decode validate (s.map altCharsTranslate)

/-- Modelled from the spec: `add_padding` (`jwt_authorizer.util`, not among
the sources) restores the `=` padding removed per "base64url **without
padding**", bringing the length to a multiple of four; its behaviour is
fixed by `tests/util_test.py::test_add_padding`. -/
def add_padding (s : List Char) : List Char :=
  s ++ List.replicate ((4 - s.length % 4) % 4) '='

/-! ## Base64 lemmas -/

/-- Every six-bit value's alphabet character decodes back to it, is not a
padding or separator character, and survives the url-safe translation and
its inverse. -/
theorem b64Char_spec : ∀ v : Fin 64,
    b64Val (b64Char v.val) = some v.val ∧
    b64Char v.val ≠ '=' ∧ b64Char v.val ≠ '.' ∧
    urlsafeChar (b64Char v.val) ≠ '=' ∧ urlsafeChar (b64Char v.val) ≠ '.' ∧
    altCharsTranslate (urlsafeChar (b64Char v.val)) = b64Char v.val := by decide

theorem b64Val_b64Char {v : Nat} (h : v < 64) : b64Val (b64Char v) = some v :=
  (b64Char_spec ⟨v, h⟩).1

theorem dropWhileAll {α : Type} {p : α → Bool} :
    ∀ (xs ys : List α), (∀ x ∈ xs, p x) →
      List.dropWhile p (xs ++ ys) = List.dropWhile p ys := by
  intro xs ys h
  induction xs with
  | nil => rfl
  | cons a t ih =>
      have ha : p a = true := h a (by simp)
      simp only [List.cons_append, List.dropWhile_cons, ha, if_true]
      exact ih (fun x hx => h x (by simp [hx]))

theorem dropWhileNone {α : Type} {p : α → Bool} :
    ∀ (xs : List α), (∀ x ∈ xs, p x = false) → List.dropWhile p xs = xs := by
  intro xs h
  induction xs with
  | nil => rfl
  | cons a t ih =>
      have ha : p a = false := h a (by simp)
      simp only [List.dropWhile_cons, ha]
      simp [ih (fun x hx => h x (by simp [hx]))]

theorem takeWhileData {α : Type} {p : α → Bool} :
    ∀ (xs ys : List α), (∀ x ∈ xs, p x) → (∀ y ∈ ys, p y = false) →
      List.takeWhile p (xs ++ ys) = xs := by
  intro xs ys hx hy
  induction xs with
  | nil =>
      cases ys with
      | nil => rfl
      | cons b t =>
          have hb : p b = false := hy b (by simp)
          simp [List.takeWhile_cons, hb]
  | cons a t ih =>
      have ha : p a = true := hx a (by simp)
      simp only [List.cons_append, List.takeWhile_cons, ha, if_true]
      rw [ih (fun x h => hx x (by simp [h]))]

theorem filterAll {α : Type} {p : α → Bool} :
    ∀ (xs : List α), (∀ x ∈ xs, p x) → List.filter p xs = xs := by
  intro xs h
  induction xs with
  | nil => rfl
  | cons a t ih =>
      have ha : p a = true := h a (by simp)
      simp [List.filter_cons, ha, ih (fun x hx => h x (by simp [hx]))]

/-- Stripping the padding that was appended to pad-free data recovers the
data. -/
theorem rstripEq_append_replicate {xs : List Char} (k : Nat)
    (hx : ∀ c ∈ xs, c ≠ '=') :
    rstripEq (xs ++ List.replicate k '=') = xs := by
  unfold rstripEq
  rw [List.reverse_append, List.reverse_replicate]
  rw [dropWhileAll (List.replicate k '=') xs.reverse
    (fun x hx => by simp [List.eq_of_mem_replicate hx])]
  rw [dropWhileNone xs.reverse
    (fun x h => by
      have := hx x (List.mem_reverse.mp h)
      simp [this])]
  exact List.reverse_reverse xs

/-- Every character that the data part of the encoder emits is an alphabet
character. -/
theorem b64EncodeData_mem {bs : List Nat} (h : ∀ x ∈ bs, x < 256) :
    ∀ c ∈ b64EncodeData bs, ∃ v, v < 64 ∧ c = b64Char v := by
  induction bs using b64EncodeData.induct with
  | case1 => simp [b64EncodeData]
  | case2 a =>
      have ha : a < 256 := h a (by simp)
      intro c hc
      simp only [b64EncodeData, List.mem_cons, List.not_mem_nil, or_false] at hc
      rcases hc with hc | hc
      · exact ⟨a / 4, by omega, hc⟩
      · exact ⟨a % 4 * 16, by omega, hc⟩
  | case3 a b =>
      have ha : a < 256 := h a (by simp)
      have hb : b < 256 := h b (by simp)
      intro c hc
      simp only [b64EncodeData, List.mem_cons, List.not_mem_nil, or_false] at hc
      rcases hc with hc | hc | hc
      · exact ⟨a / 4, by omega, hc⟩
      · exact ⟨a % 4 * 16 + b / 16, by omega, hc⟩
      · exact ⟨b % 16 * 4, by omega, hc⟩
  | case4 a b c rest ih =>
      have ha : a < 256 := h a (by simp)
      have hb : b < 256 := h b (by simp)
      have hc' : c < 256 := h c (by simp)
      intro d hd
      simp only [b64EncodeData, List.mem_cons] at hd
      rcases hd with hd | hd | hd | hd | hd
      · exact ⟨a / 4, by omega, hd⟩
      · exact ⟨a % 4 * 16 + b / 16, by omega, hd⟩
      · exact ⟨b % 16 * 4 + c / 64, by omega, hd⟩
      · exact ⟨c % 64, by omega, hd⟩
      · exact ih (fun x hx => h x (by simp [hx])) d hd

/-- Data characters are never `=` or `.`, before or after the url-safe
translation. -/
theorem b64EncodeData_no_pad {bs : List Nat} (h : ∀ x ∈ bs, x < 256) :
    ∀ c ∈ b64EncodeData bs,
      c ≠ '=' ∧ c ≠ '.' ∧ urlsafeChar c ≠ '=' ∧ urlsafeChar c ≠ '.' ∧
        (b64Val c).isSome ∧ altCharsTranslate (urlsafeChar c) = c := by
  intro c hc
  obtain ⟨v, hv, rfl⟩ := b64EncodeData_mem h c hc
  obtain ⟨h1, h2, h3, h4, h5, h6⟩ := b64Char_spec ⟨v, hv⟩
  exact ⟨h2, h3, h4, h5, by simp [h1], h6⟩

/-- Length of the data part and padding count, by residue of the byte
count. -/
theorem b64EncodeData_len_mod (bs : List Nat) :
    (b64EncodeData bs).length % 4 = 0 ∧ b64PadCount bs = 0 ∨
    (b64EncodeData bs).length % 4 = 2 ∧ b64PadCount bs = 2 ∨
    (b64EncodeData bs).length % 4 = 3 ∧ b64PadCount bs = 1 := by
  induction bs using b64EncodeData.induct with
  | case1 => left; exact ⟨rfl, rfl⟩
  | case2 a => right; left; exact ⟨rfl, rfl⟩
  | case3 a b => right; right; exact ⟨rfl, rfl⟩
  | case4 a b c rest ih =>
      have hlen : (b64EncodeData (a :: b :: c :: rest)).length
          = 4 + (b64EncodeData rest).length := by
        simp [b64EncodeData]
        omega
      have hpad : b64PadCount (a :: b :: c :: rest) = b64PadCount rest := by
        unfold b64PadCount
        have : (a :: b :: c :: rest).length % 3 = rest.length % 3 := by
          simp
          omega
        rw [this]
      rw [hlen, hpad]
      omega

/-- Decoding the data part of the encoding gives the bytes back. -/
theorem pyB64DecodeData_encode {bs : List Nat} (h : ∀ x ∈ bs, x < 256) :
    pyB64DecodeData (b64EncodeData bs) = some bs := by
  induction bs using b64EncodeData.induct with
  | case1 => rfl
  | case2 a =>
      have ha : a < 256 := h a (by simp)
      show pyB64DecodeData [b64Char (a / 4), b64Char (a % 4 * 16)] = some [a]
      rw [pyB64DecodeData]
      rw [b64Val_b64Char (by omega), b64Val_b64Char (by omega)]
      simp only [Option.some.injEq, List.cons.injEq, and_true]
      omega
  | case3 a b =>
      have ha : a < 256 := h a (by simp)
      have hb : b < 256 := h b (by simp)
      show pyB64DecodeData
          [b64Char (a / 4), b64Char (a % 4 * 16 + b / 16), b64Char (b % 16 * 4)]
          = some [a, b]
      rw [pyB64DecodeData]
      rw [b64Val_b64Char (by omega), b64Val_b64Char (by omega),
        b64Val_b64Char (by omega)]
      simp only [Option.some.injEq, List.cons.injEq, and_true]
      omega
  | case4 a b c rest ih =>
      have ha : a < 256 := h a (by simp)
      have hb : b < 256 := h b (by simp)
      have hc : c < 256 := h c (by simp)
      have ih' := ih (fun x hx => h x (by simp [hx]))
      show pyB64DecodeData
          (b64Char (a / 4) :: b64Char (a % 4 * 16 + b / 16) ::
            b64Char (b % 16 * 4 + c / 64) :: b64Char (c % 64) ::
              b64EncodeData rest)
          = some (a :: b :: c :: rest)
      rw [pyB64DecodeData]
      rw [b64Val_b64Char (by omega), b64Val_b64Char (by omega),
        b64Val_b64Char (by omega), b64Val_b64Char (by omega), ih']
      simp only [Option.some.injEq, List.cons.injEq, and_true]
      omega

/-- Stripping the padding of a url-safe encoding and restoring it with
`add_padding` reproduces the padded encoding. -/
theorem add_padding_rstrip {bs : List Nat} (h : ∀ x ∈ bs, x < 256) :
    add_padding (rstripEq (urlsafeB64EncodeBytes bs)) = urlsafeB64EncodeBytes bs := by
  have hmap : urlsafeB64EncodeBytes bs
      = (b64EncodeData bs).map urlsafeChar ++ List.replicate (b64PadCount bs) '=' := by
    unfold urlsafeB64EncodeBytes b64EncodeBytes
    rw [List.map_append, List.map_replicate]
    rfl
  have hno : ∀ c ∈ (b64EncodeData bs).map urlsafeChar, c ≠ '=' := by
    intro c hc
    obtain ⟨d, hd, rfl⟩ := List.mem_map.mp hc
    exact (b64EncodeData_no_pad h d hd).2.2.1
  rw [hmap, rstripEq_append_replicate _ hno]
  unfold add_padding
  have hlen : ((b64EncodeData bs).map urlsafeChar).length = (b64EncodeData bs).length :=
    List.length_map _ _
  rcases b64EncodeData_len_mod bs with ⟨h4, hp⟩ | ⟨h4, hp⟩ | ⟨h4, hp⟩ <;>
    · rw [hlen, hp] at *
      congr 1
      rw [h4]
  
/-- Translating the url-safe characters back gives the standard-alphabet
encoding. -/
theorem altCharsTranslate_urlsafe {bs : List Nat} (h : ∀ x ∈ bs, x < 256) :
    (urlsafeB64EncodeBytes bs).map altCharsTranslate = b64EncodeBytes bs := by
  unfold urlsafeB64EncodeBytes
  rw [List.map_map]
  unfold b64EncodeBytes
  rw [List.map_append]
  congr 1
  · refine List.map_congr_left ?_ |>.trans (List.map_id _)
    intro c hc
    exact (b64EncodeData_no_pad h c hc).2.2.2.2.2
  · rw [List.map_replicate]
    rfl

/-- Strict decoding of the exact padded encoding gives the bytes back. -/
theorem pyB64Decode_validate_encode {bs : List Nat} (h : ∀ x ∈ bs, x < 256) :
    pyB64Decode true (b64EncodeBytes bs) = some bs := by
  unfold pyB64Decode b64EncodeBytes
  have hdataOk : ∀ c ∈ b64EncodeData bs, (b64Val c).isSome := by
    intro c hc
    exact (b64EncodeData_no_pad h c hc).2.2.2.2.1
  have hany : (b64EncodeData bs ++ List.replicate (b64PadCount bs) '=').any
      (fun c => (b64Val c).isNone ∧ c ≠ '=') = false := by
    rw [List.any_eq_false]
    intro c hc
    rcases List.mem_append.mp hc with hc | hc
    · have hs := hdataOk c hc
      simp only [decide_eq_true_eq, not_and]
      intro hnone
      exfalso
      rw [Option.isNone_iff_eq_none] at hnone
      rw [hnone] at hs
      simp at hs
    · have := List.eq_of_mem_replicate hc
      simp [this]
  have hfilter : (b64EncodeData bs ++ List.replicate (b64PadCount bs) '=').filter
      (fun c => (b64Val c).isSome ∨ c = '=')
      = b64EncodeData bs ++ List.replicate (b64PadCount bs) '=' := by
    apply filterAll
    intro c hc
    rcases List.mem_append.mp hc with hc | hc
    · simp [hdataOk c hc]
    · simp [List.eq_of_mem_replicate hc]
  have htake : (b64EncodeData bs ++ List.replicate (b64PadCount bs) '=').takeWhile
      (fun c => decide (c ≠ '=')) = b64EncodeData bs := by
    apply takeWhileData
    · intro c hc
      simp [(b64EncodeData_no_pad h c hc).1]
    · intro c hc
      simp [List.eq_of_mem_replicate hc]
  rw [if_neg (by
    rw [hany]
    simp)]
  simp only [hfilter, htake]
  rw [List.length_append, List.length_replicate]
  rcases b64EncodeData_len_mod bs with ⟨h4, hp⟩ | ⟨h4, hp⟩ | ⟨h4, hp⟩
  · rw [hp]
    rw [if_pos (by omega), if_pos h4]
    exact pyB64DecodeData_encode h
  · rw [hp]
    rw [if_neg (by omega), if_neg (by omega)]
    exact pyB64DecodeData_encode h
  · rw [hp]
    rw [if_neg (by omega), if_neg (by omega)]
    exact pyB64DecodeData_encode h

/-- Round trip of the source pipeline
`urlsafe_b64encode(secret).rstrip("=")` followed by
`b64decode(add_padding(x), altchars=b"-_", validate=True)`. -/
theorem urlsafe_b64_roundtrip {bs : List Nat} (h : ∀ x ∈ bs, x < 256) :
    pyB64DecodeAlt true (add_padding (rstripEq (urlsafeB64EncodeBytes bs))) = some bs := by
  rw [add_padding_rstrip h]
  unfold pyB64DecodeAlt
  rw [altCharsTranslate_urlsafe h]
  exact pyB64Decode_validate_encode h

/-- The stripped url-safe encoding is exactly the translated data part. -/
theorem rstrip_urlsafe_eq {bs : List Nat} (h : ∀ x ∈ bs, x < 256) :
    rstripEq (urlsafeB64EncodeBytes bs) = (b64EncodeData bs).map urlsafeChar := by
  have hmap : urlsafeB64EncodeBytes bs
      = (b64EncodeData bs).map urlsafeChar ++ List.replicate (b64PadCount bs) '=' := by
    unfold urlsafeB64EncodeBytes b64EncodeBytes
    rw [List.map_append, List.map_replicate]
    rfl
  rw [hmap]
  apply rstripEq_append_replicate
  intro c hc
  obtain ⟨d, hd, rfl⟩ := List.mem_map.mp hc
  exact (b64EncodeData_no_pad h d hd).2.2.1

/-! ## Ticket codec (`src/jwt_authorizer/session.py`) -/

/-- An oauth2_proxy ticket: hexadecimal id plus binary secret
(`Ticket` in `jwt_authorizer/session.py`). -/
structure Ticket where
  ticket_id : String
  secret : List Nat
deriving DecidableEq

/-- `Ticket.encode`: the string
`f"{prefix}-{ticket_id}.{urlsafe_b64encode(secret).rstrip('=')}"`. -/
def Ticket.encode (t : Ticket) (pfx : String) : String :=
  String.mk (pfx.data ++ '-' :: (t.ticket_id.data ++ '.' :: rstripEq (urlsafeB64EncodeBytes t.secret)))

/-- Hexadecimal digit as accepted by `int(_, 16)`. -/
def isHexDigitChar (c : Char) : Bool :=
  ('0' ≤ c ∧ c ≤ '9') ∨ ('a' ≤ c ∧ c ≤ 'f') ∨ ('A' ≤ c ∧ c ≤ 'F')

/-- Tail of a hexadecimal literal: digits with single underscores allowed
between digits. -/
def hexRest : List Char → Bool
  | [] => true
  | c :: rest =>
      if c = '_' then
        match rest with
        | c2 :: r2 => isHexDigitChar c2 && hexRest r2
        | [] => false
      else isHexDigitChar c && hexRest rest

/-- Model of Python `int(s, 16)` succeeding: optional surrounding
whitespace, an optional sign, an optional `0x`/`0X` marker, then a
non-empty run of hex digits with single underscores between digits.
(The exact CPython parser also accepts an underscore right after the
`0x` marker; no theorem below depends on that corner.) -/
def pyIntHex16Ok (s : List Char) : Bool :=
  let s1 := pyStrip s
  let s2 := match s1 with
    | '+' :: r => r
    | '-' :: r => r
    | r => r
  let s3 := match s2 with
    | '0' :: 'x' :: r => r
    | '0' :: 'X' :: r => r
    | r => r
  match s3 with
  | [] => false
  | c :: r => isHexDigitChar c && hexRest r

/-- Result of `parse_ticket`: a ticket, `None`, or an uncaught exception
(the two-field unpacking of `trimmed.split(".")` is outside the
`try` block). -/
inductive ParseTicketResult
  | found (t : Ticket)
  | failed
  | raised
deriving DecidableEq

/-- `parse_ticket` from `jwt_authorizer/session.py`. -/
def parse_ticket (pfx : String) (ticket : String) : ParseTicketResult :=
  let fullPfx := pfx.data ++ ['-']
  if ¬ fullPfx.isPrefixOf ticket.data then .failed
  else
    let trimmed := ticket.data.drop fullPfx.length
    if ¬ trimmed.contains '.' then .failed
    else
      match pySplitChar '.' trimmed with
      | [tid, secB64] =>
          if pyIntHex16Ok tid then
            match pyB64DecodeAlt true (add_padding secB64) with
            | some secret =>
                if secret = [] then .failed
                else .found { ticket_id := String.mk tid, secret := secret }
            | none => .failed
          else .failed
      | _ => .raised

/-! ## Ticket round-trip lemmas -/

theorem hexNotSpecial {c : Char} (h : isHexDigitChar c = true) :
    c ≠ '.' ∧ c ≠ '+' ∧ c ≠ '-' ∧ c ≠ '_' ∧ isPyWs c = false := by
  unfold isHexDigitChar at h
  simp only [decide_eq_true_eq] at h
  refine ⟨?_, ?_, ?_, ?_, ?_⟩ <;> first
    | (intro hc; subst hc; revert h; decide)
    | (unfold isPyWs
       simp only [decide_eq_false_iff_not]
       intro hw
       rcases hw with hw | hw | hw | hw | hw | hw <;> (subst hw; revert h; decide))

theorem pySplitChar_no_sep {sep : Char} :
    ∀ (l : List Char), (∀ c ∈ l, c ≠ sep) → pySplitChar sep l = [l] := by
  intro l h
  induction l with
  | nil => rfl
  | cons c rest ih =>
      unfold pySplitChar
      rw [if_neg (h c (by simp))]
      rw [ih (fun x hx => h x (by simp [hx]))]

theorem pySplitChar_two {sep : Char} {a b : List Char}
    (ha : ∀ c ∈ a, c ≠ sep) (hb : ∀ c ∈ b, c ≠ sep) :
    pySplitChar sep (a ++ sep :: b) = [a, b] := by
  induction a with
  | nil =>
      simp only [List.nil_append]
      unfold pySplitChar
      rw [if_pos rfl]
      rw [pySplitChar_no_sep b hb]
  | cons c rest ih =>
      simp only [List.cons_append]
      unfold pySplitChar
      rw [if_neg (ha c (by simp))]
      rw [ih (fun x hx => ha x (by simp [hx]))]

theorem pyStrip_of_no_ws {l : List Char} (h : ∀ c ∈ l, isPyWs c = false) :
    pyStrip l = l := by
  unfold pyStrip
  rw [dropWhileNone l h]
  rw [dropWhileNone l.reverse (fun c hc => h c (List.mem_reverse.mp hc))]
  exact List.reverse_reverse l

theorem hexRest_of_hex : ∀ (l : List Char), (∀ c ∈ l, isHexDigitChar c) →
    hexRest l = true := by
  intro l h
  induction l with
  | nil => rfl
  | cons c rest ih =>
      unfold hexRest
      rw [if_neg (hexNotSpecial (h c (by simp))).2.2.2.1]
      rw [h c (by simp), ih (fun x hx => h x (by simp [hx]))]
      rfl

theorem pyIntHex16Ok_of_hex {l : List Char} (hne : l ≠ [])
    (h : ∀ c ∈ l, isHexDigitChar c) : pyIntHex16Ok l = true := by
  unfold pyIntHex16Ok
  dsimp only
  rw [pyStrip_of_no_ws (fun c hc => (hexNotSpecial (h c hc)).2.2.2.2)]
  cases l with
  | nil => exact absurd rfl hne
  | cons c rest =>
      have hc := h c (by simp)
      have hplus := (hexNotSpecial hc).2.1
      have hminus := (hexNotSpecial hc).2.2.1
      have hsign : (match c :: rest with
          | '+' :: r => r
          | '-' :: r => r
          | r => r) = c :: rest := by
        split
        · next heq => exact absurd (List.cons.inj heq.symm).1.symm hplus
        · next heq => exact absurd (List.cons.inj heq.symm).1.symm hminus
        · rfl
      rw [hsign]
      have h0x : (match c :: rest with
          | '0' :: 'x' :: r => r
          | '0' :: 'X' :: r => r
          | r => r) = c :: rest := by
        cases rest with
        | nil =>
            split
            · next heq => simp at heq
            · next heq => simp at heq
            · rfl
        | cons c2 r2 =>
            have hc2 := h c2 (by simp)
            split
            · next heq =>
                obtain ⟨h1, h2⟩ := List.cons.inj heq.symm
                obtain ⟨h2a, _⟩ := List.cons.inj h2
                rw [← h2a] at hc2
                exact absurd hc2 (by decide)
            · next heq =>
                obtain ⟨h1, h2⟩ := List.cons.inj heq.symm
                obtain ⟨h2a, _⟩ := List.cons.inj h2
                rw [← h2a] at hc2
                exact absurd hc2 (by decide)
            · rfl
      rw [h0x]
      show (isHexDigitChar c && hexRest rest) = true
      rw [hc, hexRest_of_hex rest (fun x hx => h x (by simp [hx]))]
      rfl

/-- C10: for every Ticket with a non-empty hexadecimal id and a non-empty
byte-string secret, and for every prefix string,
`parse_ticket(prefix, ticket.encode(prefix))` returns a Ticket equal to the
original (round trip of `prefix-<ticket_id>.<base64url secret, unpadded>`). -/
theorem ticket_encode_parse_roundtrip (pfx : String) (t : Ticket)
    (hidne : t.ticket_id.data ≠ []) (hid : ∀ c ∈ t.ticket_id.data, isHexDigitChar c)
    (hsecne : t.secret ≠ []) (hsec : ∀ x ∈ t.secret, x < 256) :
    parse_ticket pfx (t.encode pfx) = .found t := by
  unfold parse_ticket Ticket.encode
  set sec := rstripEq (urlsafeB64EncodeBytes t.secret) with hsecdef
  have hshape : (String.mk (pfx.data ++ '-' :: (t.ticket_id.data ++ '.' :: sec))).data
      = (pfx.data ++ ['-']) ++ (t.ticket_id.data ++ '.' :: sec) := by
    simp
  rw [hshape]
  have hpre : (pfx.data ++ ['-']).isPrefixOf
      ((pfx.data ++ ['-']) ++ (t.ticket_id.data ++ '.' :: sec)) = true := by
    rw [List.isPrefixOf_iff_prefix]
    exact List.prefix_append _ _
  rw [if_neg (by simp [hpre])]
  rw [List.drop_left]
  have hsecchars : ∀ c ∈ sec, c ≠ '.' := by
    intro c hc
    rw [hsecdef, rstrip_urlsafe_eq hsec] at hc
    obtain ⟨d, hd, rfl⟩ := List.mem_map.mp hc
    exact (b64EncodeData_no_pad hsec d hd).2.2.2.1
  have hcontains : (t.ticket_id.data ++ '.' :: sec).contains '.' = true := by
    simp
  rw [if_neg (by simp [hcontains])]
  rw [pySplitChar_two (fun c hc => (hexNotSpecial (hid c hc)).1) hsecchars]
  show (if pyIntHex16Ok t.ticket_id.data = true then
      match pyB64DecodeAlt true (add_padding sec) with
      | some secret =>
          if secret = [] then ParseTicketResult.failed
          else ParseTicketResult.found { ticket_id := String.mk t.ticket_id.data, secret := secret }
      | none => ParseTicketResult.failed
    else ParseTicketResult.failed) = ParseTicketResult.found t
  rw [if_pos (pyIntHex16Ok_of_hex hidne hid)]
  rw [hsecdef, urlsafe_b64_roundtrip hsec]
  show (if t.secret = [] then ParseTicketResult.failed
      else ParseTicketResult.found { ticket_id := String.mk t.ticket_id.data, secret := t.secret })
      = ParseTicketResult.found t
  rw [if_neg hsecne]

/-- Witness for the ticket round trip at a concrete ticket and prefix. -/
theorem ticket_encode_parse_roundtrip_witness :
    parse_ticket "oauth2_proxy" ((Ticket.mk "5d36af" [1, 2, 255, 254]).encode "oauth2_proxy")
      = .found (Ticket.mk "5d36af" [1, 2, 255, 254]) :=
  ticket_encode_parse_roundtrip "oauth2_proxy" (Ticket.mk "5d36af" [1, 2, 255, 254])
    (by decide) (by decide) (by decide) (by decide)

/-! ## The `/auth` evaluator (`src/gafaelfawr/handlers/auth.py`)

The aiohttp request is modelled by its query string (a list of key/value
pairs, in order), its headers (a `CIMultiDict`, modelled as a list of pairs
looked up case-insensitively on the name), and the outcome of the session
cookie check (`some token` when the cookie holds a handle whose session
exists).  JWT verification, the session store for `gsh-` handles in the
`Authorization` header, and the token issuer are oracle parameters. -/

/-- `AuthType` from `gafaelfawr/handlers/util.py` (only its constructor
names are used here). -/
inductive AuthType
  | Basic
  | Bearer
deriving DecidableEq

/-- Name of the authentication type as it appears in a challenge. -/
def AuthType.str : AuthType → String
  | .Basic => "Basic"
  | .Bearer => "Bearer"

/-- `Satisfy` authorization strategies. -/
inductive Satisfy
  | ANY
  | ALL
deriving DecidableEq

/-- `satisfy.name.lower()`. -/
def Satisfy.nameLower : Satisfy → String
  | .ANY => "any"
  | .ALL => "all"

/-- RFC 6750 error codes used by the handler. -/
inductive AuthError
  | invalid_request
  | invalid_token
  | insufficient_scope
deriving DecidableEq

/-- The code attribute of an error. -/
def AuthError.code : AuthError → String
  | .invalid_request => "invalid_request"
  | .invalid_token => "invalid_token"
  | .insufficient_scope => "insufficient_scope"

/-- `AuthChallenge` from `gafaelfawr/handlers/util.py` (its fields are
fixed by the constructor calls in `handlers/auth.py`). -/
structure AuthChallenge where
  auth_type : AuthType
  realm : String
  error : Option AuthError := none
  error_description : Option String := none
  scope : Option String := none
deriving DecidableEq

/-- Modelled from the spec: `AuthChallenge.as_header` lives in
`gafaelfawr/handlers/util.py`, which is not among the sources; the spec
fixes the RFC 6750 shape
`<AuthType> realm="<realm>", error="<code>", error_description="<text>"[, scope="s1 s2"]`. -/
def AuthChallenge.as_header (c : AuthChallenge) : String :=
  c.auth_type.str ++ " realm=\"" ++ c.realm ++ "\""
    ++ (match c.error with
        | none => ""
        | some e => ", error=\"" ++ e.code ++ "\"")
    ++ (match c.error_description with
        | none => ""
        | some d => ", error_description=\"" ++ d ++ "\"")
    ++ (match c.scope with
        | none => ""
        | some s => ", scope=\"" ++ s ++ "\"")

/-- `VerifiedToken` (`gafaelfawr/tokens.py`), restricted to the claims the
handler reads: `aud` and the names of the `isMemberOf` groups. -/
structure VerifiedToken where
  encoded : String
  claims_aud : String
  claims_isMemberOf : List String
  username : String
  uid : String
  scope : List String
  jti : String := "UNKNOWN"
  email : Option String := none
deriving DecidableEq

/-- `AuthConfig`: the `scopes` field is a Python set, represented by the
list of requested values (membership and `sorted()` are the only
operations applied to it). -/
structure AuthConfig where
  scopes : List String
  satisfy : Satisfy
  auth_type : AuthType
deriving DecidableEq

/-- The configuration fields read by the handler. -/
structure Config where
  realm : String
  issuer_aud : String
  issuer_aud_internal : String
deriving DecidableEq

/-- All values of a repeated query parameter (`MultiDict.getall`). -/
def queryGetAll (q : List (String × String)) (k : String) : List String :=
  (q.filter (fun p => p.1 = k)).map (fun p => p.2)

/-- First value of a query parameter (`MultiDict.get`). -/
def queryGet (q : List (String × String)) (k : String) : Option String :=
  match queryGetAll q k with
  | [] => none
  | v :: _ => some v

/-- Case-insensitive header lookup (`CIMultiDict.get`). -/
def headerGet (hs : List (String × String)) (k : String) : Option String :=
  match hs.find? (fun p => lowerStr p.1 = lowerStr k) with
  | none => none
  | some p => some p.2

/-- The request as seen by the handler. -/
structure Request where
  query : List (String × String)
  headers : List (String × String)
  session : Option VerifiedToken
deriving DecidableEq

/-- Outcome of `parse_auth_config`: an `AuthConfig` or an
`HTTPBadRequest`. -/
inductive ParseCfg
  | ok (cfg : AuthConfig)
  | badRequest (msg : String)
deriving DecidableEq

/-- `parse_auth_config`. -/
def parse_auth_config (q : List (String × String)) : ParseCfg :=
  let required_scopes := queryGetAll q "scope"
  if required_scopes = [] then .badRequest "scope parameter not set in the request"
  else
    let satisfy := (queryGet q "satisfy").getD "all"
    if satisfy ≠ "any" ∧ satisfy ≠ "all" then
      .badRequest "satisfy parameter must be any or all"
    else
      let auth_type := (queryGet q "auth_type").getD "bearer"
      if auth_type ≠ "basic" ∧ auth_type ≠ "bearer" then
        .badRequest "auth_type parameter must be basic or bearer"
      else
        .ok { scopes := required_scopes,
              satisfy := if satisfy = "any" then .ANY else .ALL,
              auth_type := if auth_type = "basic" then .Basic else .Bearer }

/-- Outcome of `parse_authorization`: a handle or token (or none), an
`InvalidRequestException`, or an uncaught `ValueError` (the two-value
unpacking of `header.split(" ")` is not guarded). -/
inductive ParseAuthz
  | tok (t : Option String)
  | invalidRequest (msg : String)
  | raised (msg : String)
deriving DecidableEq

/-- The `try` body around `b64decode(auth_blob).decode()` and
`basic_auth.strip().split(":")`; any exception there is caught and turned
into an `InvalidRequestException`.  The embedding covers ASCII payloads:
decoded bytes ≥ 128 (where UTF-8 decoding could only succeed for selected
multi-byte sequences) are conservatively treated as a decode failure. -/
inductive BasicParse
  | up (user pass : String)
  | exc
deriving DecidableEq

/-- Decode the Basic credential blob. -/
def pyBasicDecode (blob : String) : BasicParse :=
  match pyB64Decode false blob.data with
  | none => .exc
  | some bytes =>
      if bytes.any (fun b => 128 ≤ b) then .exc
      else
        match pySplitChar ':' (pyStrip (bytes.map Char.ofNat)) with
        | [u, p] => .up (String.mk u) (String.mk p)
        | _ => .exc

/-- `parse_authorization`. -/
def parse_authorization (headers : List (String × String)) : ParseAuthz :=
  match headerGet headers "Authorization" with
  | none => .tok none
  | some header =>
      if header = "" then .tok none
      else if ¬ header.data.contains ' ' then
        .invalidRequest "malformed Authorization header"
      else
        match pySplitChar ' ' header.data with
        | [a, b] =>
            let auth_type := String.mk a
            let auth_blob := String.mk b
            if lowerStr auth_type = "bearer" then .tok (some auth_blob)
            else if lowerStr auth_type ≠ "basic" then
              .invalidRequest ("unkonwn Authorization type " ++ auth_type)
            else
              match pyBasicDecode auth_blob with
              | .exc => .invalidRequest "invalid Basic auth string"
              | .up user password =>
                  if password = "x-oauth-basic" then .tok (some user)
                  else if user = "x-oauth-basic" then .tok (some password)
                  else .tok (some user)
        | _ => .raised "too many values to unpack"

/-- Outcome of `get_token_from_request`. -/
inductive TokenAcq
  | ok (t : Option VerifiedToken)
  | invalidRequest (msg : String)
  | invalidToken (msg : String)
  | raised (msg : String)
deriving DecidableEq

/-- `get_token_from_request`: the session cookie wins; otherwise the
`Authorization` header is parsed, `gsh-` handles are resolved through the
session store oracle and other strings through the `verify_token`
oracle (whose failure is an `InvalidTokenException`). -/
def get_token_from_request (verify : String → Except String VerifiedToken)
    (sessionLookup : String → Option VerifiedToken)
    (session : Option VerifiedToken) (headers : List (String × String)) : TokenAcq :=
  match session with
  | some t => .ok (some t)
  | none =>
      match parse_authorization headers with
      | .invalidRequest m => .invalidRequest m
      | .raised m => .raised m
      | .tok none => .ok none
      | .tok (some handleOrToken) =>
          if ("gsh-".data).isPrefixOf handleOrToken.data then
            .ok (sessionLookup handleOrToken)
          else
            match verify handleOrToken with
            | .ok t => .ok (some t)
            | .error m => .invalidToken m

/-- An HTTP response (status, the headers set by the handler, body). -/
structure Response where
  status : Nat
  headers : List (String × String)
  body : String
deriving DecidableEq

/-- Outcome of the whole handler: a response, or an exception that no
`except` clause catches (aiohttp then produces a 500). -/
inductive AuthOutcome
  | response (r : Response)
  | raised (msg : String)
deriving DecidableEq

/-- Case-insensitive lookup in response headers. -/
def respHeader (r : Response) (k : String) : Option String :=
  headerGet r.headers k

/-- `unauthorized`: 401 — or 403 when the request carries
`X-Requested-With: XMLHttpRequest` (value compared case-insensitively) —
with the same `Cache-Control` and `WWW-Authenticate` headers in both
cases. -/
def unauthorized (headers : List (String × String)) (challenge : AuthChallenge)
    (error : String) : Response :=
  let hs := [("Cache-Control", "no-cache, must-revalidate"),
             ("WWW-Authenticate", challenge.as_header)]
  match headerGet headers "X-Requested-With" with
  | some rw => if lowerStr rw = "xmlhttprequest" then ⟨403, hs, error⟩ else ⟨401, hs, error⟩
  | none => ⟨401, hs, error⟩

/-- `forbidden`: 403 with an `insufficient_scope` challenge whose `scope`
attribute lists the sorted required scopes. -/
def forbidden (cfg : Config) (acfg : AuthConfig) : Response :=
  let error := "Token missing required scope"
  let challenge : AuthChallenge :=
    { auth_type := acfg.auth_type, realm := cfg.realm,
      error := some .insufficient_scope, error_description := some error,
      scope := some (joinSep " " (pySortedSet acfg.scopes)) }
  ⟨403, [("Cache-Control", "no-cache, must-revalidate"),
         ("WWW-Authenticate", challenge.as_header)], error⟩

/-- `maybe_reissue_token`: reissue to the internal audience exactly when
the `audience` query parameter equals the configured internal audience and
the token's `aud` claim is the default audience; `reissue` is the issuer
oracle (`issuer.reissue_token(token, jti=handle.key, internal=True)`). -/
def maybe_reissue_token (cfg : Config) (reissue : VerifiedToken → VerifiedToken)
    (q : List (String × String)) (token : VerifiedToken) : VerifiedToken :=
  if ¬ (queryGet q "audience" = some cfg.issuer_aud_internal) then token
  else if ¬ (token.claims_aud = cfg.issuer_aud) then token
  else reissue token

/-- `build_success_headers`, in dictionary insertion order. -/
def build_success_headers (acfg : AuthConfig) (token : VerifiedToken) :
    List (String × String) :=
  [("X-Auth-Request-Scopes-Accepted", joinSep " " (pySortedSet acfg.scopes)),
   ("X-Auth-Request-Scopes-Satisfy", acfg.satisfy.nameLower),
   ("X-Auth-Request-User", token.username),
   ("X-Auth-Request-Uid", token.uid)]
  ++ (if token.scope = [] then []
      else [("X-Auth-Request-Token-Scopes", joinSep " " (pySortedSet token.scope))])
  ++ (match token.email with
      | some e => if e = "" then [] else [("X-Auth-Request-Email", e)]
      | none => [])
  ++ (if token.claims_isMemberOf = [] then []
      else [("X-Auth-Request-Groups", joinSep "," token.claims_isMemberOf)])
  ++ [("X-Auth-Request-Token", token.encoded)]

/-- The scope check of `get_auth` (lines 199–203). -/
def authorizedCheck (acfg : AuthConfig) (token : VerifiedToken) : Bool :=
  match acfg.satisfy with
  | .ANY => acfg.scopes.any (fun s => token.scope.contains s)
  | .ALL => acfg.scopes.all (fun s => token.scope.contains s)

/-- `get_auth`, the `/auth` route handler. -/
def get_auth (cfg : Config) (verify : String → Except String VerifiedToken)
    (sessionLookup : String → Option VerifiedToken)
    (reissue : VerifiedToken → VerifiedToken) (req : Request) : AuthOutcome :=
  match parse_auth_config req.query with
  | .badRequest m => .response ⟨400, [], m⟩
  | .ok acfg =>
      match get_token_from_request verify sessionLookup req.session req.headers with
      | .raised m => .raised m
      | .invalidRequest m =>
          let challenge : AuthChallenge :=
            { auth_type := acfg.auth_type, realm := cfg.realm,
              error := some .invalid_request, error_description := some m }
          .response ⟨400, [("WWW-Authenticate", challenge.as_header)], m⟩
      | .invalidToken m =>
          .response (unauthorized req.headers
            { auth_type := acfg.auth_type, realm := cfg.realm,
              error := some .invalid_token, error_description := some m } m)
      | .ok none =>
          .response (unauthorized req.headers
            { auth_type := acfg.auth_type, realm := cfg.realm }
            "Authentication required")
      | .ok (some token) =>
          if ¬ authorizedCheck acfg token then .response (forbidden cfg acfg)
          else
            let token2 := maybe_reissue_token cfg reissue req.query token
            .response ⟨200, build_success_headers acfg token2, "ok"⟩

/-! ## Handler lemmas -/

theorem queryGetAll_cons_ne {k' k v : String} {q : List (String × String)}
    (h : k' ≠ k) : queryGetAll ((k', v) :: q) k = queryGetAll q k := by
  unfold queryGetAll
  rw [List.filter_cons_of_neg (by simp [h])]

theorem queryGet_cons_ne {k' k v : String} {q : List (String × String)}
    (h : k' ≠ k) : queryGet ((k', v) :: q) k = queryGet q k := by
  unfold queryGet
  rw [queryGetAll_cons_ne h]

theorem parse_auth_config_cons_ne {k v : String} {q : List (String × String)}
    (h1 : k ≠ "scope") (h2 : k ≠ "satisfy") (h3 : k ≠ "auth_type") :
    parse_auth_config ((k, v) :: q) = parse_auth_config q := by
  unfold parse_auth_config
  rw [queryGetAll_cons_ne h1, queryGet_cons_ne h2, queryGet_cons_ne h3]

theorem headerGet_cons_ne {k' k v : String} {hs : List (String × String)}
    (h : lowerStr k' ≠ lowerStr k) :
    headerGet ((k', v) :: hs) k = headerGet hs k := by
  unfold headerGet
  rw [List.find?_cons_of_neg _ (by simp [h])]

theorem headerGet_cons_self {k v : String} {hs : List (String × String)} :
    headerGet ((k, v) :: hs) k = some v := by
  unfold headerGet
  rw [List.find?_cons_of_pos _ (by simp)]

theorem headerGet_append_of_none {A B : List (String × String)} {k : String}
    (h : A.find? (fun p => lowerStr p.1 = lowerStr k) = none) :
    headerGet (A ++ B) k = headerGet B k := by
  unfold headerGet
  rw [List.find?_append, h]
  simp

theorem get_token_cons_xrw (verify : String → Except String VerifiedToken)
    (sl : String → Option VerifiedToken) (session : Option VerifiedToken)
    (hs : List (String × String)) (v : String) :
    get_token_from_request verify sl session (("X-Requested-With", v) :: hs)
      = get_token_from_request verify sl session hs := by
  unfold get_token_from_request parse_authorization
  rw [headerGet_cons_ne (by decide)]

theorem maybe_reissue_cons_ne (cfg : Config) (reissue : VerifiedToken → VerifiedToken)
    {k v : String} {q : List (String × String)} (t : VerifiedToken)
    (h : k ≠ "audience") :
    maybe_reissue_token cfg reissue ((k, v) :: q) t = maybe_reissue_token cfg reissue q t := by
  unfold maybe_reissue_token
  rw [queryGet_cons_ne h]

theorem unauthorized_no_ajax {hs : List (String × String)}
    (ch : AuthChallenge) (err : String)
    (hnone : headerGet hs "X-Requested-With" = none) :
    unauthorized hs ch err
      = ⟨401, [("Cache-Control", "no-cache, must-revalidate"),
               ("WWW-Authenticate", ch.as_header)], err⟩ := by
  unfold unauthorized
  rw [hnone]

theorem unauthorized_ajax {hs : List (String × String)} {v : String}
    (ch : AuthChallenge) (err : String) (hv : lowerStr v = "xmlhttprequest") :
    unauthorized (("X-Requested-With", v) :: hs) ch err
      = ⟨403, [("Cache-Control", "no-cache, must-revalidate"),
               ("WWW-Authenticate", ch.as_header)], err⟩ := by
  unfold unauthorized
  rw [headerGet_cons_self]
  dsimp only
  rw [if_pos hv]

theorem respHeader_unauthorized_cache (hs : List (String × String))
    (ch : AuthChallenge) (err : String) :
    respHeader (unauthorized hs ch err) "Cache-Control"
      = some "no-cache, must-revalidate" := by
  unfold unauthorized
  split
  · split <;> rfl
  · rfl

theorem respHeader_forbidden_cache (cfg : Config) (acfg : AuthConfig) :
    respHeader (forbidden cfg acfg) "Cache-Control"
      = some "no-cache, must-revalidate" := rfl

/-- Reduction of `get_auth` when the session cookie supplies the token. -/
theorem get_auth_session_eq (cfg : Config) (verify : String → Except String VerifiedToken)
    (sl : String → Option VerifiedToken) (reissue : VerifiedToken → VerifiedToken)
    (req : Request) (acfg : AuthConfig) (t : VerifiedToken)
    (hcfg : parse_auth_config req.query = .ok acfg)
    (hs : req.session = some t) :
    get_auth cfg verify sl reissue req =
      (if ¬ authorizedCheck acfg t then .response (forbidden cfg acfg)
       else .response ⟨200, build_success_headers acfg
         (maybe_reissue_token cfg reissue req.query t), "ok"⟩) := by
  unfold get_auth get_token_from_request
  rw [hcfg, hs]

/-! ## Concrete instances used by witnesses and counterexamples -/

/-- A configuration with a realm and the two issuer audiences. -/
def exCfg : Config := ⟨"example.com", "aud-default", "aud-internal"⟩

/-- A verifier oracle that accepts every token string, mapping it to a
token whose claims record the string (so response headers reveal which
string the handler took as the token). -/
def exVerifyTok : String → Except String VerifiedToken := fun s =>
  .ok ⟨s, "aud-default", [], "user-" ++ s, "1", ["exec:test"], "jti", none⟩

/-- A session-store oracle with no stored sessions. -/
def exSessNone : String → Option VerifiedToken := fun _ => none

/-- An issuer oracle that visibly marks every token it reissues. -/
def exReissue : VerifiedToken → VerifiedToken := fun t =>
  { t with encoded := t.encoded ++ "-reissued" }

/-- A session token with scopes `exec:test` and `read:all`. -/
def exToken : VerifiedToken :=
  ⟨"token-enc", "aud-default", [], "alice", "42", ["exec:test", "read:all"], "j", none⟩

/-! ## C1 — scope authorization decision -/

/-- C1: for every `/auth` request with required scopes `R` and a verified
token with scopes `S`, the request is authorized (status 200) exactly when
under `satisfy=any` some required scope is in `S` and under `satisfy=all`
(the default) every required scope is in `S`; when the check fails the
response is 403 with an `insufficient_scope` challenge listing the
required scopes. -/
theorem auth_scope_decision (cfg : Config)
    (verify : String → Except String VerifiedToken)
    (sl : String → Option VerifiedToken) (reissue : VerifiedToken → VerifiedToken)
    (req : Request) (acfg : AuthConfig) (t : VerifiedToken)
    (hcfg : parse_auth_config req.query = .ok acfg)
    (hs : req.session = some t) :
    ((match acfg.satisfy with
      | .ANY => ∃ s ∈ acfg.scopes, s ∈ t.scope
      | .ALL => ∀ s ∈ acfg.scopes, s ∈ t.scope) ↔
      (∃ r, get_auth cfg verify sl reissue req = .response r ∧ r.status = 200)) ∧
    (¬ (match acfg.satisfy with
      | .ANY => ∃ s ∈ acfg.scopes, s ∈ t.scope
      | .ALL => ∀ s ∈ acfg.scopes, s ∈ t.scope) →
      ∃ r, get_auth cfg verify sl reissue req = .response r ∧ r.status = 403 ∧
        respHeader r "WWW-Authenticate" = some (AuthChallenge.as_header
          { auth_type := acfg.auth_type, realm := cfg.realm,
            error := some .insufficient_scope,
            error_description := some "Token missing required scope",
            scope := some (joinSep " " (pySortedSet acfg.scopes)) })) := by
  have heq := get_auth_session_eq cfg verify sl reissue req acfg t hcfg hs
  have hb : authorizedCheck acfg t = true ↔
      (match acfg.satisfy with
       | .ANY => ∃ s ∈ acfg.scopes, s ∈ t.scope
       | .ALL => ∀ s ∈ acfg.scopes, s ∈ t.scope) := by
    unfold authorizedCheck
    cases acfg.satisfy
    · simp [List.any_eq_true]
    · simp [List.all_eq_true]
  by_cases hA : authorizedCheck acfg t = true
  · rw [heq, if_neg (not_not_intro hA)]
    constructor
    · constructor
      · intro _
        exact ⟨_, rfl, rfl⟩
      · intro _
        exact hb.mp hA
    · intro hP
      exact absurd (hb.mp hA) hP
  · rw [heq, if_pos hA]
    constructor
    · constructor
      · intro hP
        exact absurd (hb.mpr hP) hA
      · rintro ⟨r, hr, h200⟩
        cases hr
        simp [forbidden] at h200
    · intro _
      refine ⟨forbidden cfg acfg, rfl, rfl, ?_⟩
      rfl

/-- Witness for C1 at a concrete request: `scope=exec:admin&scope=exec:test`
with the default `satisfy=all` against a token holding only `exec:test`
and `read:all` is rejected with the 403 challenge. -/
theorem auth_scope_decision_witness :
    parse_auth_config [("scope", "exec:admin"), ("scope", "exec:test")]
        = .ok ⟨["exec:admin", "exec:test"], .ALL, .Bearer⟩ ∧
    ¬ (∀ s ∈ ["exec:admin", "exec:test"], s ∈ exToken.scope) ∧
    (∃ r, get_auth exCfg exVerifyTok exSessNone exReissue
        ⟨[("scope", "exec:admin"), ("scope", "exec:test")], [], some exToken⟩
        = .response r ∧ r.status = 403 ∧
      respHeader r "WWW-Authenticate" = some (AuthChallenge.as_header
        { auth_type := .Bearer, realm := "example.com",
          error := some .insufficient_scope,
          error_description := some "Token missing required scope",
          scope := some (joinSep " " (pySortedSet ["exec:admin", "exec:test"])) })) := by
  refine ⟨by decide, by decide, ?_⟩
  exact (auth_scope_decision exCfg exVerifyTok exSessNone exReissue
      ⟨[("scope", "exec:admin"), ("scope", "exec:test")], [], some exToken⟩
      ⟨["exec:admin", "exec:test"], .ALL, .Bearer⟩ exToken (by decide) rfl).2
    (by decide)

/-! ## C2 — delegated tokens -/

/-- C2 counterexample: on a request that passes authentication and the
scope check and sets `notebook=true`, the handler does not mint any child
token: the `X-Auth-Request-Token` header carries exactly the original
encoded token (even though the issuer oracle marks every token it
reissues), and the whole response equals the one for the same request
without the `notebook` parameter. -/
theorem auth_notebook_param_ignored :
    (∃ r, get_auth exCfg exVerifyTok exSessNone exReissue
        ⟨[("scope", "exec:test"), ("notebook", "true")], [], some exToken⟩
        = .response r ∧ r.status = 200 ∧
        respHeader r "X-Auth-Request-Token" = some "token-enc") ∧
    exToken.encoded = "token-enc" ∧
    get_auth exCfg exVerifyTok exSessNone exReissue
        ⟨[("scope", "exec:test"), ("notebook", "true")], [], some exToken⟩
      = get_auth exCfg exVerifyTok exSessNone exReissue
        ⟨[("scope", "exec:test")], [], some exToken⟩ := by
  refine ⟨⟨_, rfl, rfl, by decide⟩, rfl, by decide⟩

/-- C2 as amended: a request that passes authentication and the scope
check always answers 200 with the (possibly audience-reissued) token in
`X-Auth-Request-Token`; the token is reissued only when the `audience`
query parameter equals the configured internal audience, and the
`notebook` and `delegate_to` query parameters have no effect at all. -/
theorem auth_success_token_header (cfg : Config)
    (verify : String → Except String VerifiedToken)
    (sl : String → Option VerifiedToken) (reissue : VerifiedToken → VerifiedToken)
    (req : Request) (acfg : AuthConfig) (t : VerifiedToken)
    (hcfg : parse_auth_config req.query = .ok acfg)
    (hs : req.session = some t)
    (hauth : authorizedCheck acfg t = true) :
    (∃ r, get_auth cfg verify sl reissue req = .response r ∧ r.status = 200 ∧
      respHeader r "X-Auth-Request-Token"
        = some (maybe_reissue_token cfg reissue req.query t).encoded) ∧
    (¬ queryGet req.query "audience" = some cfg.issuer_aud_internal →
      (maybe_reissue_token cfg reissue req.query t).encoded = t.encoded) ∧
    (∀ v, get_auth cfg verify sl reissue
        { req with query := ("notebook", v) :: req.query }
      = get_auth cfg verify sl reissue req) ∧
    (∀ v, get_auth cfg verify sl reissue
        { req with query := ("delegate_to", v) :: req.query }
      = get_auth cfg verify sl reissue req) := by
  have heq := get_auth_session_eq cfg verify sl reissue req acfg t hcfg hs
  refine ⟨?_, ?_, ?_, ?_⟩
  · rw [heq, if_neg (not_not_intro hauth)]
    refine ⟨_, rfl, rfl, ?_⟩
    unfold respHeader build_success_headers
    dsimp only
    simp only [List.append_assoc, List.cons_append, List.nil_append]
    rw [headerGet_cons_ne (by decide), headerGet_cons_ne (by decide),
      headerGet_cons_ne (by decide), headerGet_cons_ne (by decide)]
    set tok2 := maybe_reissue_token cfg reissue req.query t
    have h1 : (if tok2.scope = [] then ([] : List (String × String))
        else [("X-Auth-Request-Token-Scopes", joinSep " " (pySortedSet tok2.scope))]).find?
          (fun p => lowerStr p.1 = lowerStr "X-Auth-Request-Token") = none := by
      split
      · rfl
      · rfl
    have h2 : ((match tok2.email with
        | some e => if e = "" then ([] : List (String × String))
            else [("X-Auth-Request-Email", e)]
        | none => []) : List (String × String)).find?
          (fun p => lowerStr p.1 = lowerStr "X-Auth-Request-Token") = none := by
      split
      · split
        · rfl
        · rfl
      · rfl
    have h3 : (if tok2.claims_isMemberOf = [] then ([] : List (String × String))
        else [("X-Auth-Request-Groups", joinSep "," tok2.claims_isMemberOf)]).find?
          (fun p => lowerStr p.1 = lowerStr "X-Auth-Request-Token") = none := by
      split
      · rfl
      · rfl
    rw [headerGet_append_of_none h1, headerGet_append_of_none h2,
      headerGet_append_of_none h3]
    rfl
  · intro hne
    unfold maybe_reissue_token
    rw [if_pos hne]
  · intro v
    rw [get_auth_session_eq cfg verify sl reissue
        { req with query := ("notebook", v) :: req.query } acfg t
        ((parse_auth_config_cons_ne (by decide) (by decide) (by decide)).trans hcfg) hs,
      heq]
    dsimp only
    rw [maybe_reissue_cons_ne cfg reissue t (by decide)]
  · intro v
    rw [get_auth_session_eq cfg verify sl reissue
        { req with query := ("delegate_to", v) :: req.query } acfg t
        ((parse_auth_config_cons_ne (by decide) (by decide) (by decide)).trans hcfg) hs,
      heq]
    dsimp only
    rw [maybe_reissue_cons_ne cfg reissue t (by decide)]

/-- Witness for the amended C2 at a concrete authorized request. -/
theorem auth_success_token_header_witness :
    parse_auth_config [("scope", "exec:test")] = .ok ⟨["exec:test"], .ALL, .Bearer⟩ ∧
    authorizedCheck ⟨["exec:test"], .ALL, .Bearer⟩ exToken = true ∧
    (∃ r, get_auth exCfg exVerifyTok exSessNone exReissue
        ⟨[("scope", "exec:test")], [], some exToken⟩ = .response r ∧
      r.status = 200 ∧
      respHeader r "X-Auth-Request-Token"
        = some (maybe_reissue_token exCfg exReissue [("scope", "exec:test")] exToken).encoded) :=
  ⟨by decide, by decide,
    (auth_success_token_header exCfg exVerifyTok exSessNone exReissue
      ⟨[("scope", "exec:test")], [], some exToken⟩
      ⟨["exec:test"], .ALL, .Bearer⟩ exToken (by decide) rfl (by decide)).1⟩

/-! ## C3 — Cache-Control on 401/403 -/

/-- C3 counterexample: the 401 produced for a request with no credentials
carries `Cache-Control: no-cache, must-revalidate`, not the value
`no-cache, no-store` stated by the specification. -/
theorem auth_cache_control_value :
    (∃ r, get_auth exCfg exVerifyTok exSessNone exReissue
        ⟨[("scope", "exec:test")], [], none⟩ = .response r ∧
      r.status = 401 ∧
      respHeader r "Cache-Control" = some "no-cache, must-revalidate") ∧
    "no-cache, must-revalidate" ≠ "no-cache, no-store" :=
  ⟨⟨_, rfl, rfl, rfl⟩, by decide⟩

/-- C3 as amended: every 401 and every 403 response of the `/auth`
evaluator carries the header `Cache-Control` with the exact value
`no-cache, must-revalidate`. -/
theorem auth_error_cache_control (cfg : Config)
    (verify : String → Except String VerifiedToken)
    (sl : String → Option VerifiedToken) (reissue : VerifiedToken → VerifiedToken)
    (req : Request) (r : Response)
    (hr : get_auth cfg verify sl reissue req = .response r)
    (hstatus : r.status = 401 ∨ r.status = 403) :
    respHeader r "Cache-Control" = some "no-cache, must-revalidate" := by
  unfold get_auth at hr
  cases hpc : parse_auth_config req.query with
  | badRequest m =>
      rw [hpc] at hr
      cases hr
      simp at hstatus
  | ok acfg =>
      rw [hpc] at hr
      cases hta : get_token_from_request verify sl req.session req.headers with
      | raised m =>
          rw [hta] at hr
          simp at hr
      | invalidRequest m =>
          rw [hta] at hr
          cases hr
          simp at hstatus
      | invalidToken m =>
          rw [hta] at hr
          cases hr
          exact respHeader_unauthorized_cache _ _ _
      | ok ot =>
          cases ot with
          | none =>
              rw [hta] at hr
              cases hr
              exact respHeader_unauthorized_cache _ _ _
          | some token =>
              rw [hta] at hr
              dsimp only at hr
              by_cases hA : authorizedCheck acfg token = true
              · rw [if_neg (not_not_intro hA)] at hr
                cases hr
                simp at hstatus
              · rw [if_pos hA] at hr
                cases hr
                exact respHeader_forbidden_cache _ _

/-- Witness for the amended C3 at the concrete 401 of
`auth_cache_control_value`'s request. -/
theorem auth_error_cache_control_witness :
    (∃ r, get_auth exCfg exVerifyTok exSessNone exReissue
        ⟨[("scope", "exec:test")], [], none⟩ = .response r ∧
      (r.status = 401 ∨ r.status = 403) ∧
      respHeader r "Cache-Control" = some "no-cache, must-revalidate") := by
  refine ⟨_, rfl, Or.inl rfl, ?_⟩
  exact auth_error_cache_control exCfg exVerifyTok exSessNone exReissue
    ⟨[("scope", "exec:test")], [], none⟩ _ rfl (Or.inl rfl)

/-! ## C4 — AJAX requests get 403 instead of 401 -/

/-- Continuation of `get_auth` after the token acquisition step (proof
device; `get_auth_ok_eq` shows `get_auth` factors through it). -/
def auth_after_token (cfg : Config) (acfg : AuthConfig)
    (reissue : VerifiedToken → VerifiedToken) (q : List (String × String))
    (hs : List (String × String)) : TokenAcq → AuthOutcome
  | .raised m => .raised m
  | .invalidRequest m =>
      .response ⟨400, [("WWW-Authenticate",
        (AuthChallenge.mk acfg.auth_type cfg.realm (some .invalid_request)
          (some m) none).as_header)], m⟩
  | .invalidToken m =>
      .response (unauthorized hs
        ⟨acfg.auth_type, cfg.realm, some .invalid_token, some m, none⟩ m)
  | .ok none =>
      .response (unauthorized hs ⟨acfg.auth_type, cfg.realm, none, none, none⟩
        "Authentication required")
  | .ok (some token) =>
      if ¬ authorizedCheck acfg token then .response (forbidden cfg acfg)
      else .response ⟨200, build_success_headers acfg
        (maybe_reissue_token cfg reissue q token), "ok"⟩

theorem get_auth_ok_eq (cfg : Config) (verify : String → Except String VerifiedToken)
    (sl : String → Option VerifiedToken) (reissue : VerifiedToken → VerifiedToken)
    (req : Request) (acfg : AuthConfig)
    (hcfg : parse_auth_config req.query = .ok acfg) :
    get_auth cfg verify sl reissue req
      = auth_after_token cfg acfg reissue req.query req.headers
          (get_token_from_request verify sl req.session req.headers) := by
  unfold get_auth auth_after_token
  rw [hcfg]

/-- C4: for a request carrying `X-Requested-With: XMLHttpRequest` (value
compared case-insensitively), any authentication failure that would
otherwise answer 401 answers 403 instead, with exactly the same headers
and body, whatever the cause of the failure. -/
theorem auth_ajax_403 (cfg : Config)
    (verify : String → Except String VerifiedToken)
    (sl : String → Option VerifiedToken) (reissue : VerifiedToken → VerifiedToken)
    (req : Request) (v : String) (r : Response)
    (hnone : headerGet req.headers "X-Requested-With" = none)
    (hv : lowerStr v = "xmlhttprequest")
    (hr : get_auth cfg verify sl reissue req = .response r)
    (h401 : r.status = 401) :
    get_auth cfg verify sl reissue
        { req with headers := ("X-Requested-With", v) :: req.headers }
      = .response ⟨403, r.headers, r.body⟩ := by
  cases hpc : parse_auth_config req.query with
  | badRequest m =>
      rw [show get_auth cfg verify sl reissue req = .response ⟨400, [], m⟩ by
        unfold get_auth
        rw [hpc]] at hr
      cases hr
      simp at h401
  | ok acfg =>
      rw [get_auth_ok_eq cfg verify sl reissue req acfg hpc] at hr
      rw [get_auth_ok_eq cfg verify sl reissue
        { req with headers := ("X-Requested-With", v) :: req.headers } acfg hpc]
      dsimp only
      rw [get_token_cons_xrw]
      cases hta : get_token_from_request verify sl req.session req.headers with
      | raised m =>
          rw [hta] at hr
          simp [auth_after_token] at hr
      | invalidRequest m =>
          rw [hta] at hr
          simp only [auth_after_token] at hr
          cases hr
          simp at h401
      | invalidToken m =>
          rw [hta] at hr
          simp only [auth_after_token] at hr ⊢
          rw [unauthorized_no_ajax _ _ hnone] at hr
          cases hr
          rw [unauthorized_ajax _ _ hv]
      | ok ot =>
          cases ot with
          | none =>
              rw [hta] at hr
              simp only [auth_after_token] at hr ⊢
              rw [unauthorized_no_ajax _ _ hnone] at hr
              cases hr
              rw [unauthorized_ajax _ _ hv]
          | some token =>
              rw [hta] at hr
              simp only [auth_after_token] at hr
              by_cases hA : authorizedCheck acfg token = true
              · rw [if_neg (not_not_intro hA)] at hr
                cases hr
                simp at h401
              · rw [if_pos hA] at hr
                cases hr
                simp [forbidden] at h401

/-- Witness for C4: the credential-less 401 request of
`auth_cache_control_value` plus the AJAX header answers 403 with the same
headers and body. -/
theorem auth_ajax_403_witness :
    headerGet ([] : List (String × String)) "X-Requested-With" = none ∧
    lowerStr "XMLHttpRequest" = "xmlhttprequest" ∧
    (∃ r, get_auth exCfg exVerifyTok exSessNone exReissue
        ⟨[("scope", "exec:test")], [], none⟩ = .response r ∧ r.status = 401 ∧
      get_auth exCfg exVerifyTok exSessNone exReissue
          ⟨[("scope", "exec:test")], [("X-Requested-With", "XMLHttpRequest")], none⟩
        = .response ⟨403, r.headers, r.body⟩) := by
  refine ⟨rfl, by decide, _, rfl, rfl, ?_⟩
  exact auth_ajax_403 exCfg exVerifyTok exSessNone exReissue
    ⟨[("scope", "exec:test")], [], none⟩ "XMLHttpRequest" _ rfl (by decide) rfl rfl

/-! ## C6 — Basic auth token resolution and the malformed-header bug -/

/-- ASCII bytes of a string (its UTF-8 encoding for ASCII payloads). -/
def strBytes (s : String) : List Nat := s.data.map Char.toNat

/-- C6: the three `Basic` credential layouts resolve the token exactly as
documented — `user=tok, pass=x-oauth-basic` takes the username,
`user=x-oauth-basic, pass=tok` takes the password, anything else falls
back to the username (visible through `X-Auth-Request-User`, since the
verifier oracle records which string it received) — but a malformed
`Authorization` header containing two spaces escapes `parse_authorization`
as an uncaught `ValueError` (aiohttp answers 500), instead of the 400 with
an `invalid_request` challenge that the claim (and the function's own
docstring) promises. -/
theorem auth_basic_token_resolution :
    (∃ r, get_auth exCfg exVerifyTok exSessNone exReissue
        ⟨[("scope", "exec:test")],
         [("Authorization", "Basic " ++ String.mk (b64EncodeBytes (strBytes "tok1:x-oauth-basic")))],
         none⟩ = .response r ∧
      respHeader r "X-Auth-Request-User" = some "user-tok1") ∧
    (∃ r, get_auth exCfg exVerifyTok exSessNone exReissue
        ⟨[("scope", "exec:test")],
         [("Authorization", "Basic " ++ String.mk (b64EncodeBytes (strBytes "x-oauth-basic:tok2")))],
         none⟩ = .response r ∧
      respHeader r "X-Auth-Request-User" = some "user-tok2") ∧
    (∃ r, get_auth exCfg exVerifyTok exSessNone exReissue
        ⟨[("scope", "exec:test")],
         [("Authorization", "Basic " ++ String.mk (b64EncodeBytes (strBytes "user3:pass3")))],
         none⟩ = .response r ∧
      respHeader r "X-Auth-Request-User" = some "user-user3") ∧
    get_auth exCfg exVerifyTok exSessNone exReissue
        ⟨[("scope", "exec:test")], [("Authorization", "Bearer a b")], none⟩
      = .raised "too many values to unpack" := by
  refine ⟨⟨_, rfl, by decide⟩, ⟨_, rfl, by decide⟩, ⟨_, rfl, by decide⟩, by decide⟩

/-! ## User-info service (`src/gafaelfawr/services/userinfo.py`)

LDAP (`conn.get_groups`) and the Firestore GID allocator are oracle
parameters; `get_user_info_from_token` is `UserInfoService.get_user_info_from_token`
with `self._ldap`/`self._firestore` as `Option` arguments. -/

/-- `TokenGroup`: a group name and an optional GID. -/
structure TokenGroup where
  name : String
  id : Option Nat := none
deriving DecidableEq

/-- The fields of `TokenData` the service reads. -/
structure TokenData where
  username : String
  name : Option String := none
  uid : Option Nat := none
  email : Option String := none
  groups : Option (List TokenGroup) := none
deriving DecidableEq

/-- The fields of `TokenUserInfo` the service writes. -/
structure TokenUserInfo where
  username : String
  name : Option String := none
  uid : Option Nat := none
  email : Option String := none
  groups : Option (List TokenGroup) := none
deriving DecidableEq

/-- An LDAP connection: `conn.get_groups(username, add_gids)`. -/
structure LDAPConn where
  get_groups : String → Bool → List TokenGroup

/-- Python `a or b` on optional strings: `a` unless it is `None` or the
empty string. -/
def pyOrStrOpt (a b : Option String) : Option String :=
  match a with
  | none => b
  | some s => if s = "" then b else a

/-- `UserInfoService._get_user_info_from_ldap`: builds a `TokenUserInfo`
holding only the username, then fills `groups` from LDAP; when Firestore
is configured, `add_gids` is false and every group's `id` is replaced by
the Firestore GID. -/
def get_user_info_from_ldap (conn : LDAPConn) (firestoreGid : Option (String → Nat))
    (username : String) : TokenUserInfo :=
  let add_gids := firestoreGid.isNone
  let groups0 := conn.get_groups username add_gids
  let groups := match firestoreGid with
    | some f => groups0.map (fun g => { g with id := some (f g.name) })
    | none => groups0
  { username := username, groups := some groups }

/-- `UserInfoService.get_user_info_from_token`. -/
def get_user_info_from_token (ldap : Option LDAPConn)
    (firestoreGid : Option (String → Nat)) (td : TokenData) : TokenUserInfo :=
  match ldap with
  | some conn =>
      let l := get_user_info_from_ldap conn firestoreGid td.username
      { username := td.username,
        name := pyOrStrOpt l.name td.name,
        uid := td.uid,
        email := pyOrStrOpt l.email td.email,
        groups := l.groups }
  | none =>
      { username := td.username, name := td.name, uid := td.uid,
        email := td.email, groups := td.groups }

/-- An LDAP oracle that knows no groups. -/
def exLdapEmpty : LDAPConn := ⟨fun _ _ => []⟩

/-- A token carrying a name, email and one group. -/
def exTokenData : TokenData :=
  ⟨"alice", some "Alice", some 42, some "alice@example.com", some [⟨"admins", some 17⟩]⟩

/-- C8 counterexample: with LDAP configured and an empty LDAP group list,
the returned groups are the empty LDAP list, not the groups stored with
the token — there is no fallback for groups. -/
theorem userinfo_groups_no_fallback :
    (get_user_info_from_token (some exLdapEmpty) none exTokenData).groups = some [] ∧
    exTokenData.groups = some [⟨"admins", some 17⟩] ∧
    (get_user_info_from_token (some exLdapEmpty) none exTokenData).groups
      ≠ exTokenData.groups := by
  refine ⟨rfl, rfl, by decide⟩

/-- C8 as amended: with LDAP configured, `name`, `email` and `uid` always
come from the data stored with the token (this LDAP code never supplies a
name or email, so the `ldap or token` fallback always takes the token
side), while `groups` always come from LDAP — even when the LDAP group
list is empty — with GIDs replaced from Firestore when it is configured. -/
theorem userinfo_merge (conn : LDAPConn) (firestoreGid : Option (String → Nat))
    (td : TokenData) :
    (get_user_info_from_token (some conn) firestoreGid td).username = td.username ∧
    (get_user_info_from_token (some conn) firestoreGid td).name = td.name ∧
    (get_user_info_from_token (some conn) firestoreGid td).email = td.email ∧
    (get_user_info_from_token (some conn) firestoreGid td).uid = td.uid ∧
    (get_user_info_from_token (some conn) firestoreGid td).groups
      = some (match firestoreGid with
        | some f => (conn.get_groups td.username false).map
            (fun g => { g with id := some (f g.name) })
        | none => conn.get_groups td.username true) ∧
    (conn.get_groups td.username firestoreGid.isNone = [] →
      (get_user_info_from_token (some conn) firestoreGid td).groups = some []) := by
  unfold get_user_info_from_token get_user_info_from_ldap
  dsimp only
  refine ⟨rfl, ?_, ?_, rfl, ?_, ?_⟩
  · cases td.name <;> rfl
  · cases td.email <;> rfl
  · cases firestoreGid <;> rfl
  · intro h
    cases hf : firestoreGid with
    | none =>
        rw [hf] at h
        simp only [Option.isNone_none] at h
        simp [h]
    | some f =>
        rw [hf] at h
        simp only [Option.isNone_some] at h
        simp [h]

/-- Witness for the amended C8 at the concrete empty-LDAP instance. -/
theorem userinfo_merge_witness :
    (get_user_info_from_token (some exLdapEmpty) none exTokenData).name
        = exTokenData.name ∧
    (get_user_info_from_token (some exLdapEmpty) none exTokenData).email
        = exTokenData.email ∧
    (exLdapEmpty.get_groups exTokenData.username true = [] ∧
      (get_user_info_from_token (some exLdapEmpty) none exTokenData).groups = some []) := by
  have h := userinfo_merge exLdapEmpty none exTokenData
  exact ⟨h.2.1, h.2.2.1, rfl, h.2.2.2.2.2 rfl⟩

/-! ## Settings validation (`src/gafaelfawr/config.py`)

The pydantic `Settings` model has three validators: `valid_loglevel`
(`getattr(logging, v, None)` must be truthy), `exactly_one_provider`
(exactly one of `github`/`oidc` present), and `nonempty_list`
(`initial_admins` non-empty).  No validator inspects `known_scopes` or
`group_mapping`.  Parsing succeeds (for well-formed input) exactly when
all validators pass.

`getattr(logging, v, None)` ranges over the whole namespace of the
`logging` module — level constants, functions, classes, module globals —
so its truthiness is modelled as an oracle, constrained only by the
documented integer values of the level constants (`CRITICAL = 50`,
`FATAL = 50`, `ERROR = 40`, `WARNING = 30`, `WARN = 30`, `INFO = 20`,
`DEBUG = 10`, `NOTSET = 0`): the seven non-zero constants are truthy and
`NOTSET` is falsy.  All other names (`"warning"`, `"Logger"`, names the
module does not define, ...) are left unconstrained, since the module
namespace is open-ended; the theorems below hold for every admissible
oracle, in particular for the real module's truthiness function. -/

/-- The truthiness of `getattr(logging, v, None)`, constrained at the
eight level-constant names. -/
structure LoggingModule where
  attrTruthy : String → Bool
  critical_truthy : attrTruthy "CRITICAL" = true
  fatal_truthy : attrTruthy "FATAL" = true
  error_truthy : attrTruthy "ERROR" = true
  warning_truthy : attrTruthy "WARNING" = true
  warn_truthy : attrTruthy "WARN" = true
  info_truthy : attrTruthy "INFO" = true
  debug_truthy : attrTruthy "DEBUG" = true
  notset_falsy : attrTruthy "NOTSET" = false

/-- The validated fields of the settings input; `github`/`oidc` record
whether the corresponding provider section is present. -/
structure SettingsIn where
  loglevel : String
  initial_admins : List String
  github : Bool
  oidc : Bool
  known_scopes : List String
  group_mapping : List (String × List String)
deriving DecidableEq

/-- The `valid_loglevel` validator:
`level = getattr(logging, v, None); if not level: raise`. -/
def valid_loglevel (lm : LoggingModule) (v : String) : Bool :=
  lm.attrTruthy v

/-- The `exactly_one_provider` validator. -/
def exactly_one_provider (s : SettingsIn) : Bool :=
  ¬ (s.oidc ∧ s.github) ∧ (s.oidc ∨ s.github)

/-- The `nonempty_list` validator on `initial_admins`. -/
def nonempty_admins (s : SettingsIn) : Bool :=
  s.initial_admins ≠ []

/-- Whether `Settings.parse_obj` succeeds on well-formed input: all three
validators pass. -/
def settingsValid (lm : LoggingModule) (s : SettingsIn) : Bool :=
  valid_loglevel lm s.loglevel && exactly_one_provider s && nonempty_admins s

/-- One admissible logging-module oracle (truthy exactly at the seven
non-zero level constants), used only to ground closed statements; the
closed statements below evaluate it only at constrained names, where
every admissible oracle agrees with it. -/
def exLoggingModule : LoggingModule :=
  ⟨fun v => v = "CRITICAL" ∨ v = "FATAL" ∨ v = "ERROR" ∨ v = "WARNING" ∨
      v = "WARN" ∨ v = "INFO" ∨ v = "DEBUG",
    by decide, by decide, by decide, by decide, by decide, by decide,
    by decide, by decide⟩

/-- C9 counterexample: a settings object whose `group_mapping` references
the scope `admin:token`, absent from its (empty) `known_scopes`, parses
successfully — no validator ties `group_mapping` to `known_scopes`.  The
oracle is evaluated only at `"INFO"`, where every admissible oracle (the
real module's included, `logging.INFO = 20`) returns true. -/
theorem settings_group_mapping_not_checked :
    settingsValid exLoggingModule
        ⟨"INFO", ["admin"], true, false, [], [("admin:token", ["admins"])]⟩
        = true ∧
    exLoggingModule.attrTruthy "INFO" = true ∧
    ¬ ("admin:token" ∈
        (⟨"INFO", ["admin"], true, false, [], [("admin:token", ["admins"])]⟩ :
          SettingsIn).known_scopes) := by
  refine ⟨by decide, by decide, by decide⟩

/-- C9 as amended: for every truthiness oracle satisfying the level
constants' documented values, parsing the settings fails exactly when
both providers are present, neither is present, `initial_admins` is
empty, or `getattr(logging, loglevel, None)` is falsy — a condition that
rejects the genuine level name `NOTSET` (value 0) and accepts any truthy
non-level attribute name; `known_scopes` and `group_mapping` never
influence the outcome. -/
theorem settings_validation (lm : LoggingModule) (s : SettingsIn) :
    (settingsValid lm s = false ↔
      ((s.github ∧ s.oidc) ∨ (¬ s.github ∧ ¬ s.oidc) ∨ s.initial_admins = [] ∨
        lm.attrTruthy s.loglevel = false)) ∧
    (s.loglevel = "NOTSET" → settingsValid lm s = false) ∧
    (∀ gm ks, settingsValid lm
        { s with group_mapping := gm, known_scopes := ks } = settingsValid lm s) := by
  refine ⟨?_, ?_, fun gm ks => rfl⟩
  · unfold settingsValid valid_loglevel exactly_one_provider nonempty_admins
    cases hA : lm.attrTruthy s.loglevel <;>
      cases hg : s.github <;> cases ho : s.oidc <;>
        by_cases hadm : s.initial_admins = [] <;> simp_all
  · intro h
    unfold settingsValid valid_loglevel
    rw [h, lm.notset_falsy]
    rfl

/-- Witness for the amended C9 at the concrete level name `NOTSET` and a
concrete admissible oracle. -/
theorem settings_validation_witness :
    settingsValid exLoggingModule ⟨"NOTSET", ["admin"], true, false, [], []⟩ = false ∧
    (settingsValid exLoggingModule ⟨"NOTSET", ["admin"], true, false, [], []⟩ = false ↔
      (((true : Bool) ∧ (false : Bool)) ∨ (¬ (true : Bool) ∧ ¬ (false : Bool)) ∨
        (["admin"] : List String) = [] ∨
        exLoggingModule.attrTruthy "NOTSET" = false)) :=
  ⟨(settings_validation exLoggingModule
      ⟨"NOTSET", ["admin"], true, false, [], []⟩).2.1 rfl,
   (settings_validation exLoggingModule
      ⟨"NOTSET", ["admin"], true, false, [], []⟩).1⟩

/-! ## JWKS (C7)

The gafaelfawr JWKS handler and `gafaelfawr.util.number_to_base64` are not
among the sources (only `tests/handlers/oidc_test.py::test_well_known_jwks`
and `tests/util_test.py` are), so they are modelled from the spec. -/

/-- Big-endian minimal byte representation of a natural number (helper of
`number_to_base64`; empty only for 0, which is handled by the caller). -/
def natBEBytesCore (n : Nat) : List Nat :=
  if h : n = 0 then []
  else natBEBytesCore (n / 256) ++ [n % 256]
decreasing_by exact Nat.div_lt_self (Nat.pos_of_ne_zero h) (by decide)

/-- Big-endian bytes of a number, `[0]` for 0 (so that
`number_to_base64(0) == b"AA"` as the unit test requires). -/
def natBEBytes (n : Nat) : List Nat :=
  if n = 0 then [0] else natBEBytesCore n

/-- Modelled from the spec: `number_to_base64` (`gafaelfawr.util`, not
among the sources) encodes a number's big-endian bytes as base64url
without `=` padding (RFC 7515/7518); its values are fixed by
`tests/util_test.py::test_number_to_base64`. -/
def number_to_base64 (n : Nat) : String :=
  String.mk (rstripEq (urlsafeB64EncodeBytes (natBEBytes n)))

/-- A JSON Web Key as published by the JWKS route. -/
structure JWK where
  kty : String
  alg : String
  use : String
  kid : String
  n : String
  e : String
deriving DecidableEq

/-- Modelled from the spec: the `/.well-known/jwks.json` handler returns
`{keys: [{kty: "RSA", alg: "RS256", use: "sig", kid, n, e}]}` for the one
configured signing keypair, with `n` and `e` from `number_to_base64`. -/
def jwksKeys (kid : String) (modulus exponent : Nat) : List JWK :=
  [{ kty := "RSA", alg := "RS256", use := "sig", kid := kid,
     n := number_to_base64 modulus, e := number_to_base64 exponent }]

theorem natBEBytesCore_lt (n : Nat) : ∀ x ∈ natBEBytesCore n, x < 256 := by
  induction n using Nat.strong_induction_on with
  | _ n ih =>
      intro x hx
      unfold natBEBytesCore at hx
      by_cases h : n = 0
      · rw [dif_pos h] at hx
        simp at hx
      · rw [dif_neg h] at hx
        rcases List.mem_append.mp hx with hx | hx
        · exact ih (n / 256) (Nat.div_lt_self (Nat.pos_of_ne_zero h) (by decide)) x hx
        · simp at hx
          omega

theorem natBEBytes_lt (n : Nat) : ∀ x ∈ natBEBytes n, x < 256 := by
  intro x hx
  unfold natBEBytes at hx
  by_cases h : n = 0
  · rw [if_pos h] at hx
    simp at hx
    omega
  · rw [if_neg h] at hx
    exact natBEBytesCore_lt n x hx

/-- Characters of `number_to_base64` are never `=`. -/
theorem number_to_base64_no_pad (n : Nat) :
    ∀ c ∈ (number_to_base64 n).data, c ≠ '=' := by
  intro c hc
  unfold number_to_base64 at hc
  rw [show (String.mk (rstripEq (urlsafeB64EncodeBytes (natBEBytes n)))).data
      = rstripEq (urlsafeB64EncodeBytes (natBEBytes n)) from rfl] at hc
  rw [rstrip_urlsafe_eq (natBEBytes_lt n)] at hc
  obtain ⟨d, hd, rfl⟩ := List.mem_map.mp hc
  exact (b64EncodeData_no_pad (natBEBytes_lt n) d hd).2.2.1

/-- C7: the JWKS document holds exactly one key; its fields are
`kty="RSA"`, `alg="RS256"`, `use="sig"`, the configured `kid`, and the
keypair's modulus and exponent encoded as base64url with no `=` padding
characters. -/
theorem jwks_single_unpadded_key (kid : String) (modulus exponent : Nat) :
    (jwksKeys kid modulus exponent).length = 1 ∧
    (∀ k ∈ jwksKeys kid modulus exponent,
      k.kty = "RSA" ∧ k.alg = "RS256" ∧ k.use = "sig" ∧ k.kid = kid ∧
      k.n = number_to_base64 modulus ∧ k.e = number_to_base64 exponent ∧
      (∀ c ∈ k.n.data, c ≠ '=') ∧ (∀ c ∈ k.e.data, c ≠ '=')) := by
  refine ⟨rfl, ?_⟩
  intro k hk
  simp only [jwksKeys, List.mem_singleton] at hk
  subst hk
  exact ⟨rfl, rfl, rfl, rfl, rfl, rfl,
    number_to_base64_no_pad modulus, number_to_base64_no_pad exponent⟩

/-- Witness for C7 at a concrete kid and RSA public numbers. -/
theorem jwks_single_unpadded_key_witness :
    (jwksKeys "some-kid" 65537 3).length = 1 ∧
    (∀ c ∈ (number_to_base64 65537).data, c ≠ '=') ∧
    (∀ c ∈ (number_to_base64 3).data, c ≠ '=') := by
  have h := (jwks_single_unpadded_key "some-kid" 65537 3).2
    { kty := "RSA", alg := "RS256", use := "sig", kid := "some-kid",
      n := number_to_base64 65537, e := number_to_base64 3 }
    (List.mem_singleton.mpr rfl)
  exact ⟨(jwks_single_unpadded_key "some-kid" 65537 3).1,
    h.2.2.2.2.2.2.1, h.2.2.2.2.2.2.2⟩

/-! ## OIDC Provider token endpoint (C5)

The gafaelfawr OIDC server (`gafaelfawr/services/oidc.py` and
`gafaelfawr/handlers/oidc.py`) is not among the sources — only
`tests/handlers/oidc_test.py::test_token_errors` is — so the redemption
path is modelled from the spec (§4.3 validation order). -/

/-- A stored authorization-code entry: the parsed blob, or a blob that
fails to deserialize. -/
inductive CodeEntry
  | valid (clientId redirectUri tokenKey : String)
  | corrupt
deriving DecidableEq

/-- The OIDC Provider state: configured clients (id, secret), the code
store keyed by code key, and the keys of still-existing user tokens. -/
structure OIDCServer where
  clients : List (String × String)
  codes : List (String × CodeEntry)
  liveTokens : List String
deriving DecidableEq

/-- A form-encoded token request. -/
structure TokenRequest where
  grant_type : Option String
  client_id : Option String
  client_secret : Option String
  code : Option String
  redirect_uri : Option String
deriving DecidableEq

/-- An RFC 6749 error body. -/
structure OAuthError where
  error : String
  error_description : String
deriving DecidableEq

/-- Modelled from the spec: redemption at `POST /auth/openid/token`
(`gafaelfawr/handlers/oidc.py` + `OIDCService.redeem_code`, not among the
sources), following the spec's §4.3 validation order and the error bodies
asserted by `tests/handlers/oidc_test.py::test_token_errors`: missing
parameters → `invalid_request` (a missing `client_secret` alone surfaces
at client authentication as `invalid_client`); wrong grant type →
`unsupported_grant_type`; unknown client or bad secret →
`invalid_client`; every failure tied to the code itself →
`invalid_grant` with the fixed description "Invalid authorization code".
Success returns the redeemed code's token key. -/
def redeemCode (srv : OIDCServer) (r : TokenRequest) : Except OAuthError String :=
  match r.grant_type, r.client_id, r.code, r.redirect_uri with
  | some grant_type, some client_id, some code, some redirect_uri =>
      if grant_type ≠ "authorization_code" then
        .error ⟨"unsupported_grant_type", "Invalid grant type " ++ grant_type⟩
      else
        match r.client_secret with
        | none => .error ⟨"invalid_client", "No client_secret provided"⟩
        | some client_secret =>
            match (srv.clients.find? (fun c => c.1 = client_id)) with
            | none => .error ⟨"invalid_client", "Unknown client ID " ++ client_id⟩
            | some c =>
                if c.2 ≠ client_secret then
                  .error ⟨"invalid_client", "Invalid secret for " ++ client_id⟩
                else
                  match (srv.codes.find? (fun p => p.1 = code)) with
                  | none => .error ⟨"invalid_grant", "Invalid authorization code"⟩
                  | some (_, .corrupt) =>
                      .error ⟨"invalid_grant", "Invalid authorization code"⟩
                  | some (_, .valid codeClient codeRedirect tokenKey) =>
                      if codeClient ≠ client_id then
                        .error ⟨"invalid_grant", "Invalid authorization code"⟩
                      else if codeRedirect ≠ redirect_uri then
                        .error ⟨"invalid_grant", "Invalid authorization code"⟩
                      else if ¬ srv.liveTokens.contains tokenKey then
                        .error ⟨"invalid_grant", "Invalid authorization code"⟩
                      else .ok tokenKey
  | _, _, _, _ => .error ⟨"invalid_request", "Invalid token request"⟩

/-- C5: with a correct `client_id`/`client_secret`, each of the five
failure causes — unknown code, corrupt stored blob, code issued to a
different client, mismatched `redirect_uri`, deleted underlying token —
produces the identical body `{error: "invalid_grant", error_description:
"Invalid authorization code"}`, so the causes are indistinguishable to
the caller. -/
theorem oidc_invalid_grant_opaque (srv : OIDCServer) (cid secret ck ru : String)
    (hclient : srv.clients.find? (fun c => c.1 = cid) = some (cid, secret))
    (hcause :
      srv.codes.find? (fun p => p.1 = ck) = none ∨
      (∃ k, srv.codes.find? (fun p => p.1 = ck) = some (k, .corrupt)) ∨
      (∃ k cc cr tk, srv.codes.find? (fun p => p.1 = ck)
          = some (k, .valid cc cr tk) ∧
        (cc ≠ cid ∨ cr ≠ ru ∨ ¬ srv.liveTokens.contains tk))) :
    redeemCode srv
        ⟨some "authorization_code", some cid, some secret, some ck, some ru⟩
      = .error ⟨"invalid_grant", "Invalid authorization code"⟩ := by
  unfold redeemCode
  dsimp only
  rw [if_neg (by simp)]
  rw [hclient]
  dsimp only
  rw [if_neg (by simp)]
  rcases hcause with hc | ⟨k, hc⟩ | ⟨k, cc, cr, tk, hc, hbad⟩
  · rw [hc]
  · rw [hc]
  · rw [hc]
    dsimp only
    by_cases h1 : cc = cid
    · subst h1
      rw [if_neg (by simp)]
      by_cases h2 : cr = ru
      · subst h2
        rw [if_neg (by simp)]
        rcases hbad with hbad | hbad | hbad
        · exact absurd rfl hbad
        · exact absurd rfl hbad
        · rw [if_pos hbad]
      · rw [if_pos h2]
    · rw [if_pos h1]

/-- Witness for C5: a concrete store where the code was issued to the
other client. -/
theorem oidc_invalid_grant_opaque_witness :
    ([("some-id", "some-secret"), ("other-id", "other-secret")].find?
        (fun c => c.1 = "some-id") = some ("some-id", "some-secret")) ∧
    redeemCode
        ⟨[("some-id", "some-secret"), ("other-id", "other-secret")],
         [("code1", .valid "other-id" "https://example.com/app" "tok1")],
         ["tok1"]⟩
        ⟨some "authorization_code", some "some-id", some "some-secret",
         some "code1", some "https://example.com/app"⟩
      = .error ⟨"invalid_grant", "Invalid authorization code"⟩ := by
  refine ⟨by decide, ?_⟩
  exact oidc_invalid_grant_opaque
    ⟨[("some-id", "some-secret"), ("other-id", "other-secret")],
     [("code1", .valid "other-id" "https://example.com/app" "tok1")],
     ["tok1"]⟩
    "some-id" "some-secret" "code1" "https://example.com/app" (by decide)
    (Or.inr (Or.inr ⟨"code1", "other-id", "https://example.com/app", "tok1",
      by decide, Or.inl (by decide)⟩))
